import Mathlib

set_option maxRecDepth 100000

/-!
Shallow embedding of the TrafiQ client-side analytics store
(`src/services/DataStore.js`) and of the cross-tab storage
listener (`src/analytics.js`), together with proofs settling the claims about
them.

Modelling conventions:
* JavaScript numbers are modelled as exact rationals (`ℚ`); `Math.round` is
  `⌊x + 1/2⌋` (round half towards positive infinity), matching JS semantics.
* Wall-clock time is an explicit epoch-milliseconds parameter `now : ℚ`
  threaded into each operation that reads the clock; `Date` record timestamps
  are carried as their epoch-milliseconds value (the ISO string written by
  `toISOString()` and the parse performed by `new Date(iso).getTime()` are
  mutually inverse codings of that value).  The local/UTC timezone offset is
  taken to be zero.
* JavaScript objects used as dictionaries are association lists
  `List (String × α)`; `obj[k] = v` keeps an existing key in place and
  appends a fresh key at the end, as JS property order does.  Numeric keys
  (hour-of-day) are stored through their decimal string, as JS coerces them.
* `localStorage` is modelled as the JSON value stored under the active key
  (`Store.stored`); `JSON.parse ∘ JSON.stringify` is the identity on
  JSON-representable data, so serialization is modelled by the `Json` value
  itself.
-/

namespace TrafiQ

/-- Association-list lookup, first match wins (JS property access `obj[k]`). -/
def alook {α : Type} (k : String) : List (String × α) → Option α
  | [] => none
  | kv :: rest => if kv.1 = k then some kv.2 else alook k rest

/-- Association-list update (JS `obj[k] = v`): replaces in place when the key
exists, otherwise appends at the end, matching JS property insertion order. -/
def aset {α : Type} (k : String) (v : α) : List (String × α) → List (String × α)
  | [] => [(k, v)]
  | kv :: rest => if kv.1 = k then (k, v) :: rest else kv :: aset k v rest

/-- JS `<` on strings: lexicographic comparison of code units. -/
def ltChars : List Char → List Char → Bool
  | [], [] => false
  | [], _ :: _ => true
  | _ :: _, [] => false
  | a :: xs, b :: ys =>
      if a.val < b.val then true
      else if b.val < a.val then false
      else ltChars xs ys

/-- JS string comparison `a < b`. -/
def jsLtStr (a b : String) : Bool := ltChars a.toList b.toList

/-- Zero-pad a number to two digits, as in ISO date components. -/
def pad2 (n : ℕ) : String := if n < 10 then "0" ++ toString n else toString n

/-- Zero-pad a year to four digits, as `toISOString()` does. -/
def pad4 (n : ℕ) : String :=
  if n < 10 then "000" ++ toString n
  else if n < 100 then "00" ++ toString n
  else if n < 1000 then "0" ++ toString n
  else toString n

/-- Gregorian calendar date (year, month, day) of a day number counted from
the Unix epoch 1970-01-01 (the standard civil-from-days computation the
JS `Date` / `toISOString` pair realizes). -/
def civilFromDays (z : ℤ) : ℤ × ℕ × ℕ :=
  let z2 := z + 719468
  let era := z2.fdiv 146097
  let doe := (z2 - era * 146097).toNat
  let yoe := (doe - doe / 1460 + doe / 36524 - doe / 146096) / 365
  let y := (yoe : ℤ) + era * 400
  let doy := doe - (365 * yoe + yoe / 4 - yoe / 100)
  let mp := (5 * doy + 2) / 153
  let d := doy - (153 * mp + 2) / 5 + 1
  let m := if mp < 10 then mp + 3 else mp - 9
  (if m ≤ 2 then y + 1 else y, m, d)

/-- The `YYYY-MM-DD` string the date portion of `toISOString` yields for a given
epoch day number (valid for years 0–9999, which covers every date here). -/
def dateKey (day : ℤ) : String :=
  let c := civilFromDays day
  pad4 c.1.toNat ++ "-" ++ pad2 c.2.1 ++ "-" ++ pad2 c.2.2

/-- Floor of a rational, written so the kernel can evaluate it (the
denominator of a rational is positive, so `num.fdiv den` is exactly the floor). -/
def ratFloor (q : ℚ) : ℤ := q.num.fdiv (q.den : ℤ)

/-- Milliseconds per day. -/
def msPerDay : ℚ := 86400000

/-- Epoch day number of an epoch-milliseconds instant. -/
def dayOf (t : ℚ) : ℤ := ratFloor (t / msPerDay)

/-- The date portion of the ISO string for instant `t` (what the JS
expression `toISOString` followed by splitting on `T` yields). -/
def dateKeyOf (t : ℚ) : String := dateKey (dayOf t)

/-- JS `getHours()` of instant `t`, as the object key string it becomes. -/
def hourKey (t : ℚ) : String := toString (ratFloor (t / 3600000) % 24)

/-- JS `Math.round`: round half towards positive infinity. -/
def jsRound (q : ℚ) : ℚ := (ratFloor (q + 1/2) : ℚ)

/-! ## The persisted document (`getDefaultData()` shape) -/

/-- One `hourlyData` bucket: `{ vehicles, count }`. -/
structure Bucket where
  vehicles : ℚ
  count : ℚ
  deriving DecidableEq, Repr

/-- One `dailyTotals` entry: `{ vehicles, incidents, sessions }`. -/
structure DayTotals where
  vehicles : ℚ
  incidents : ℚ
  sessions : ℚ
  deriving DecidableEq, Repr

/-- One `intersectionStats` entry: `{ vehicles, avgWait, count }`. -/
structure LocStats where
  vehicles : ℚ
  avgWait : ℚ
  count : ℚ
  deriving DecidableEq, Repr

/-- A `{ sum, count }` pair (queue buckets). -/
structure SumCount where
  sum : ℚ
  count : ℚ
  deriving DecidableEq, Repr

/-- The `queueData` subtree. -/
structure QueueData where
  totalReadings : ℚ
  totalQueueSum : ℚ
  hourlyQueue : List (String × SumCount)
  cameraQueue : List (String × SumCount)
  deriving DecidableEq, Repr

/-- The `savingsData` subtree. -/
structure SavingsData where
  totalTimeSavedMinutes : ℚ
  totalCO2SavedKg : ℚ
  optimizationsApplied : ℚ
  deriving DecidableEq, Repr

/-- One incident record produced by `recordIncident`. -/
structure Incident where
  id : ℚ
  type : String
  description : String
  timestamp : ℚ
  intersection : Option String
  deriving DecidableEq, Repr

/-- One recommendation record. -/
structure Recommendation where
  id : ℚ
  text : String
  timestamp : ℚ
  intersection : Option String
  deriving DecidableEq, Repr

/-- One emergency-vehicle event record. -/
structure EmergencyEvent where
  id : ℚ
  type : String
  lane : ℚ
  direction : String
  timestamp : ℚ
  intersection : Option String
  clearedAt : Option ℚ
  responseTimeSeconds : Option ℚ
  deriving DecidableEq, Repr

/-- The `settings` subtree of `getDefaultData()`. -/
structure Settings where
  apiKey : String
  audioAlerts : Bool
  incidentNotifications : Bool
  congestionWarnings : Bool
  heatmapEnabled : Bool
  liveVehicleCounts : Bool
  mapStyle : String
  defaultCamera : String
  frameRate : ℚ
  saveHistoricalData : Bool
  dataRetentionDays : ℤ
  deriving DecidableEq, Repr

/-- The `analytics` subtree of the document. -/
structure Analytics where
  totalVehicles : ℚ
  totalSessions : ℚ
  incidents : List Incident
  recommendations : List Recommendation
  emergencyEvents : List EmergencyEvent
  hourlyData : List (String × Bucket)
  cameraHourlyData : List (String × List (String × Bucket))
  intersectionStats : List (String × LocStats)
  dailyTotals : List (String × DayTotals)
  queueData : QueueData
  savingsData : SavingsData
  deriving DecidableEq, Repr

/-- The `session` subtree. -/
structure Session where
  lastActive : Option ℚ
  currentIntersection : Option String
  deriving DecidableEq, Repr

/-- The whole persisted `AnalyticsDocument`. -/
structure Doc where
  settings : Settings
  analytics : Analytics
  session : Session
  deriving DecidableEq, Repr

/-- The `settings` of `getDefaultData()` (the `VITE_OVERSHOOT_API_KEY` environment
variable is absent, so `apiKey` defaults to the empty string). -/
def defaultSettings : Settings :=
  { apiKey := ""
    audioAlerts := true
    incidentNotifications := true
    congestionWarnings := true
    heatmapEnabled := true
    liveVehicleCounts := true
    mapStyle := "dark"
    defaultCamera := "environment"
    frameRate := 2
    saveHistoricalData := true
    dataRetentionDays := 30 }

/-- The `analytics` subtree of `getDefaultData()`. -/
def defaultAnalytics : Analytics :=
  { totalVehicles := 0
    totalSessions := 0
    incidents := []
    recommendations := []
    emergencyEvents := []
    hourlyData := []
    cameraHourlyData := []
    intersectionStats := []
    dailyTotals := []
    queueData := { totalReadings := 0, totalQueueSum := 0, hourlyQueue := [], cameraQueue := [] }
    savingsData := { totalTimeSavedMinutes := 0, totalCO2SavedKg := 0, optimizationsApplied := 0 } }

/-- The whole `getDefaultData()` document. -/
def defaultData : Doc :=
  { settings := defaultSettings
    analytics := defaultAnalytics
    session := { lastActive := none, currentIntersection := none } }

/-! ## JSON values and the serialized document

`JSON.parse ∘ JSON.stringify` is the identity on JSON-representable data, so
the string in `localStorage` is modelled by its parsed `Json` value. -/

/-- A JSON value (object fields in insertion order, as JS preserves them). -/
inductive Json where
  | jnull : Json
  | jbool : Bool → Json
  | jnum : ℚ → Json
  | jstr : String → Json
  | jarr : List Json → Json
  | jobj : List (String × Json) → Json

/-- Encode an optional string (JS `null` for `none`). -/
def encOptStr : Option String → Json
  | none => Json.jnull
  | some s => Json.jstr s

/-- Encode an optional number (JS `null` for `none`). -/
def encOptNum : Option ℚ → Json
  | none => Json.jnull
  | some q => Json.jnum q

/-- Encode a `{ vehicles, count }` bucket. -/
def encBucket (b : Bucket) : Json :=
  Json.jobj [("vehicles", Json.jnum b.vehicles), ("count", Json.jnum b.count)]

/-- Encode a `dailyTotals` entry. -/
def encDayTotals (d : DayTotals) : Json :=
  Json.jobj [("vehicles", Json.jnum d.vehicles), ("incidents", Json.jnum d.incidents),
    ("sessions", Json.jnum d.sessions)]

/-- Encode an `intersectionStats` entry. -/
def encLocStats (s : LocStats) : Json :=
  Json.jobj [("vehicles", Json.jnum s.vehicles), ("avgWait", Json.jnum s.avgWait),
    ("count", Json.jnum s.count)]

/-- Encode a `{ sum, count }` pair. -/
def encSumCount (s : SumCount) : Json :=
  Json.jobj [("sum", Json.jnum s.sum), ("count", Json.jnum s.count)]

/-- Encode a string-keyed map by encoding each value in place. -/
def encMap {α : Type} (f : α → Json) (m : List (String × α)) : Json :=
  Json.jobj (m.map (fun kv => (kv.1, f kv.2)))

/-- Encode the `queueData` subtree. -/
def encQueueData (q : QueueData) : Json :=
  Json.jobj [("totalReadings", Json.jnum q.totalReadings),
    ("totalQueueSum", Json.jnum q.totalQueueSum),
    ("hourlyQueue", encMap encSumCount q.hourlyQueue),
    ("cameraQueue", encMap encSumCount q.cameraQueue)]

/-- Encode the `savingsData` subtree. -/
def encSavingsData (s : SavingsData) : Json :=
  Json.jobj [("totalTimeSavedMinutes", Json.jnum s.totalTimeSavedMinutes),
    ("totalCO2SavedKg", Json.jnum s.totalCO2SavedKg),
    ("optimizationsApplied", Json.jnum s.optimizationsApplied)]

/-- Encode an incident record. -/
def encIncident (i : Incident) : Json :=
  Json.jobj [("id", Json.jnum i.id), ("type", Json.jstr i.type),
    ("description", Json.jstr i.description), ("timestamp", Json.jnum i.timestamp),
    ("intersection", encOptStr i.intersection)]

/-- Encode a recommendation record. -/
def encRecommendation (r : Recommendation) : Json :=
  Json.jobj [("id", Json.jnum r.id), ("text", Json.jstr r.text),
    ("timestamp", Json.jnum r.timestamp), ("intersection", encOptStr r.intersection)]

/-- Encode an emergency-vehicle event record. -/
def encEmergencyEvent (e : EmergencyEvent) : Json :=
  Json.jobj [("id", Json.jnum e.id), ("type", Json.jstr e.type),
    ("lane", Json.jnum e.lane), ("direction", Json.jstr e.direction),
    ("timestamp", Json.jnum e.timestamp), ("intersection", encOptStr e.intersection),
    ("clearedAt", encOptNum e.clearedAt),
    ("responseTimeSeconds", encOptNum e.responseTimeSeconds)]

/-- Encode the `settings` subtree. -/
def encSettings (s : Settings) : Json :=
  Json.jobj [("apiKey", Json.jstr s.apiKey), ("audioAlerts", Json.jbool s.audioAlerts),
    ("incidentNotifications", Json.jbool s.incidentNotifications),
    ("congestionWarnings", Json.jbool s.congestionWarnings),
    ("heatmapEnabled", Json.jbool s.heatmapEnabled),
    ("liveVehicleCounts", Json.jbool s.liveVehicleCounts),
    ("mapStyle", Json.jstr s.mapStyle), ("defaultCamera", Json.jstr s.defaultCamera),
    ("frameRate", Json.jnum s.frameRate),
    ("saveHistoricalData", Json.jbool s.saveHistoricalData),
    ("dataRetentionDays", Json.jnum (s.dataRetentionDays : ℚ))]

/-- Encode the `analytics` subtree. -/
def encAnalytics (a : Analytics) : Json :=
  Json.jobj [("totalVehicles", Json.jnum a.totalVehicles),
    ("totalSessions", Json.jnum a.totalSessions),
    ("incidents", Json.jarr (a.incidents.map encIncident)),
    ("recommendations", Json.jarr (a.recommendations.map encRecommendation)),
    ("emergencyEvents", Json.jarr (a.emergencyEvents.map encEmergencyEvent)),
    ("hourlyData", encMap encBucket a.hourlyData),
    ("cameraHourlyData", encMap (encMap encBucket) a.cameraHourlyData),
    ("intersectionStats", encMap encLocStats a.intersectionStats),
    ("dailyTotals", encMap encDayTotals a.dailyTotals),
    ("queueData", encQueueData a.queueData),
    ("savingsData", encSavingsData a.savingsData)]

/-- Encode the `session` subtree. -/
def encSession (s : Session) : Json :=
  Json.jobj [("lastActive", encOptNum s.lastActive),
    ("currentIntersection", encOptStr s.currentIntersection)]

/-- Method `JSON.stringify(this.data)` result — the serialized whole document, as the JSON
value the stored string parses back to. -/
def encodeDoc (d : Doc) : Json :=
  Json.jobj [("settings", encSettings d.settings), ("analytics", encAnalytics d.analytics),
    ("session", encSession d.session)]

/-! ### Reading the parsed document back (the shape `load()` consumes) -/

/-- Decode an optional string. -/
def decOptStr : Json → Option (Option String)
  | Json.jnull => some none
  | Json.jstr s => some (some s)
  | _ => none

/-- Decode an optional number. -/
def decOptNum : Json → Option (Option ℚ)
  | Json.jnull => some none
  | Json.jnum q => some (some q)
  | _ => none

/-- Decode a number. -/
def decNum : Json → Option ℚ
  | Json.jnum q => some q
  | _ => none

/-- Decode a string. -/
def decStr : Json → Option String
  | Json.jstr s => some s
  | _ => none

/-- Decode a boolean. -/
def decBool : Json → Option Bool
  | Json.jbool b => some b
  | _ => none

/-- Decode an integer-valued number. -/
def decInt (j : Json) : Option ℤ :=
  match j with
  | Json.jnum q => if q.den = 1 then some q.num else none
  | _ => none

/-- Decode every element of a JSON array. -/
def decList {α : Type} (f : Json → Option α) : List Json → Option (List α)
  | [] => some []
  | j :: js =>
      match f j, decList f js with
      | some a, some rest => some (a :: rest)
      | _, _ => none

/-- Decode every field of a JSON object, keeping keys. -/
def decKList {α : Type} (f : Json → Option α) : List (String × Json) → Option (List (String × α))
  | [] => some []
  | kv :: rest =>
      match f kv.2, decKList f rest with
      | some a, some tail => some ((kv.1, a) :: tail)
      | _, _ => none

/-- Decode a string-keyed map. -/
def decMap {α : Type} (f : Json → Option α) : Json → Option (List (String × α))
  | Json.jobj fs => decKList f fs
  | _ => none

/-- Decode a bucket. -/
def decBucket : Json → Option Bucket
  | Json.jobj [("vehicles", v), ("count", c)] =>
      match decNum v, decNum c with
      | some v2, some c2 => some { vehicles := v2, count := c2 }
      | _, _ => none
  | _ => none

/-- Decode a `dailyTotals` entry. -/
def decDayTotals : Json → Option DayTotals
  | Json.jobj [("vehicles", v), ("incidents", i), ("sessions", s)] =>
      match decNum v, decNum i, decNum s with
      | some v2, some i2, some s2 => some { vehicles := v2, incidents := i2, sessions := s2 }
      | _, _, _ => none
  | _ => none

/-- Decode an `intersectionStats` entry. -/
def decLocStats : Json → Option LocStats
  | Json.jobj [("vehicles", v), ("avgWait", w), ("count", c)] =>
      match decNum v, decNum w, decNum c with
      | some v2, some w2, some c2 => some { vehicles := v2, avgWait := w2, count := c2 }
      | _, _, _ => none
  | _ => none

/-- Decode a `{ sum, count }` pair. -/
def decSumCount : Json → Option SumCount
  | Json.jobj [("sum", s), ("count", c)] =>
      match decNum s, decNum c with
      | some s2, some c2 => some { sum := s2, count := c2 }
      | _, _ => none
  | _ => none

/-- Decode the `queueData` subtree. -/
def decQueueData : Json → Option QueueData
  | Json.jobj [("totalReadings", r), ("totalQueueSum", s), ("hourlyQueue", h), ("cameraQueue", c)] =>
      match decNum r, decNum s, decMap decSumCount h, decMap decSumCount c with
      | some r2, some s2, some h2, some c2 =>
          some { totalReadings := r2, totalQueueSum := s2, hourlyQueue := h2, cameraQueue := c2 }
      | _, _, _, _ => none
  | _ => none

/-- Decode the `savingsData` subtree. -/
def decSavingsData : Json → Option SavingsData
  | Json.jobj [("totalTimeSavedMinutes", t), ("totalCO2SavedKg", c), ("optimizationsApplied", o)] =>
      match decNum t, decNum c, decNum o with
      | some t2, some c2, some o2 =>
          some { totalTimeSavedMinutes := t2, totalCO2SavedKg := c2, optimizationsApplied := o2 }
      | _, _, _ => none
  | _ => none

/-- Decode an incident record. -/
def decIncident : Json → Option Incident
  | Json.jobj [("id", i), ("type", t), ("description", d), ("timestamp", ts), ("intersection", x)] =>
      match decNum i, decStr t, decStr d, decNum ts, decOptStr x with
      | some i2, some t2, some d2, some ts2, some x2 =>
          some { id := i2, type := t2, description := d2, timestamp := ts2, intersection := x2 }
      | _, _, _, _, _ => none
  | _ => none

/-- Decode a recommendation record. -/
def decRecommendation : Json → Option Recommendation
  | Json.jobj [("id", i), ("text", t), ("timestamp", ts), ("intersection", x)] =>
      match decNum i, decStr t, decNum ts, decOptStr x with
      | some i2, some t2, some ts2, some x2 =>
          some { id := i2, text := t2, timestamp := ts2, intersection := x2 }
      | _, _, _, _ => none
  | _ => none

/-- Decode an emergency-vehicle event record. -/
def decEmergencyEvent : Json → Option EmergencyEvent
  | Json.jobj [("id", i), ("type", t), ("lane", l), ("direction", d), ("timestamp", ts),
      ("intersection", x), ("clearedAt", ca), ("responseTimeSeconds", rt)] =>
      match decNum i, decStr t, decNum l, decStr d, decNum ts, decOptStr x,
          decOptNum ca, decOptNum rt with
      | some i2, some t2, some l2, some d2, some ts2, some x2, some ca2, some rt2 =>
          some { id := i2, type := t2, lane := l2, direction := d2, timestamp := ts2
                 intersection := x2, clearedAt := ca2, responseTimeSeconds := rt2 }
      | _, _, _, _, _, _, _, _ => none
  | _ => none

/-- Decode the fields of the `settings` subtree (exact shape, in order). -/
def decSettingsFields : List (String × Json) → Option Settings
  | [p1, p2, p3, p4, p5, p6, p7, p8, p9, p10, p11] =>
      if p1.1 = "apiKey" ∧ p2.1 = "audioAlerts" ∧ p3.1 = "incidentNotifications" ∧
          p4.1 = "congestionWarnings" ∧ p5.1 = "heatmapEnabled" ∧
          p6.1 = "liveVehicleCounts" ∧ p7.1 = "mapStyle" ∧ p8.1 = "defaultCamera" ∧
          p9.1 = "frameRate" ∧ p10.1 = "saveHistoricalData" ∧
          p11.1 = "dataRetentionDays" then
        match decStr p1.2, decBool p2.2, decBool p3.2, decBool p4.2, decBool p5.2,
            decBool p6.2, decStr p7.2, decStr p8.2, decNum p9.2, decBool p10.2,
            decInt p11.2 with
        | some a2, some au2, some inc2, some cw2, some hm2, some lv2, some ms2,
            some dc2, some fr2, some sh2, some dr2 =>
            some { apiKey := a2, audioAlerts := au2, incidentNotifications := inc2
                   congestionWarnings := cw2, heatmapEnabled := hm2
                   liveVehicleCounts := lv2, mapStyle := ms2, defaultCamera := dc2
                   frameRate := fr2, saveHistoricalData := sh2, dataRetentionDays := dr2 }
        | _, _, _, _, _, _, _, _, _, _, _ => none
      else none
  | _ => none

/-- Decode the `settings` subtree. -/
def decSettings : Json → Option Settings
  | Json.jobj fs => decSettingsFields fs
  | _ => none

/-- Decode a JSON array with the given element decoder. -/
def decArr {α : Type} (f : Json → Option α) : Json → Option (List α)
  | Json.jarr xs => decList f xs
  | _ => none

/-- Decode the fields of the `analytics` subtree (exact shape, in order). -/
def decAnalyticsFields : List (String × Json) → Option Analytics
  | [p1, p2, p3, p4, p5, p6, p7, p8, p9, p10, p11] =>
      if p1.1 = "totalVehicles" ∧ p2.1 = "totalSessions" ∧ p3.1 = "incidents" ∧
          p4.1 = "recommendations" ∧ p5.1 = "emergencyEvents" ∧ p6.1 = "hourlyData" ∧
          p7.1 = "cameraHourlyData" ∧ p8.1 = "intersectionStats" ∧
          p9.1 = "dailyTotals" ∧ p10.1 = "queueData" ∧ p11.1 = "savingsData" then
        match decNum p1.2, decNum p2.2, decArr decIncident p3.2,
            decArr decRecommendation p4.2, decArr decEmergencyEvent p5.2,
            decMap decBucket p6.2, decMap (decMap decBucket) p7.2,
            decMap decLocStats p8.2, decMap decDayTotals p9.2, decQueueData p10.2,
            decSavingsData p11.2 with
        | some tv2, some ts2, some inc2, some rec2, some em2, some hd2, some chd2,
            some ist2, some dt2, some qd2, some sv2 =>
            some { totalVehicles := tv2, totalSessions := ts2, incidents := inc2
                   recommendations := rec2, emergencyEvents := em2, hourlyData := hd2
                   cameraHourlyData := chd2, intersectionStats := ist2
                   dailyTotals := dt2, queueData := qd2, savingsData := sv2 }
        | _, _, _, _, _, _, _, _, _, _, _ => none
      else none
  | _ => none

/-- Decode the `analytics` subtree. -/
def decAnalytics : Json → Option Analytics
  | Json.jobj fs => decAnalyticsFields fs
  | _ => none

/-- Decode the `session` subtree. -/
def decSession : Json → Option Session
  | Json.jobj [("lastActive", la), ("currentIntersection", ci)] =>
      match decOptNum la, decOptStr ci with
      | some la2, some ci2 => some { lastActive := la2, currentIntersection := ci2 }
      | _, _ => none
  | _ => none

/-- Decode a whole document. -/
def decodeDoc : Json → Option Doc
  | Json.jobj [("settings", s), ("analytics", a), ("session", ss)] =>
      match decSettings s, decAnalytics a, decSession ss with
      | some s2, some a2, some ss2 => some { settings := s2, analytics := a2, session := ss2 }
      | _, _, _ => none
  | _ => none

/-! ## The store: in-memory document plus the persisted copy -/

/-- The `DataStore` instance together with the `localStorage` slot under the
active storage key: `data` is `this.data`, `stored` is the JSON value of the
string currently persisted (or `none` when the key is absent). -/
structure Store where
  data : Doc
  stored : Option Json

/-- Method `save()`: serialize `this.data` and write it to `localStorage`. -/
def save (st : Store) : Store := { st with stored := some (encodeDoc st.data) }

/-- Method `load()`: read and parse the stored string; on a missing key or a value
that does not decode (the JS `catch` path) fall back to `getDefaultData()`.
The NaN-sanitizing branch of the source cannot fire for exact rationals and
is the identity here. -/
def load (stored : Option Json) : Doc :=
  match stored with
  | some j => (decodeDoc j).getD defaultData
  | none => defaultData

/-- Method `exportData()`: the full JSON dump of `this.data` (as the JSON value the
exported string parses back to). -/
def exportData (d : Doc) : Json := encodeDoc d

/-! ## Mutating operations (`DataStore` methods) -/

/-- The fields of the argument of `recordTrafficData` that the method reads;
JS defaults absent counts with `|| 0`, so each is carried as its numeric
value. -/
structure TrafficInput where
  car : ℚ
  bus : ℚ
  truck : ℚ
  motorcycle : ℚ
  avgWaitTime : ℚ
  deriving DecidableEq, Repr

/-- Method `recordTrafficData(data)` at clock instant `now` (epoch ms). -/
def recordTrafficData (now : ℚ) (inp : TrafficInput) (st : Store) : Store :=
  if st.data.settings.saveHistoricalData = false then st else
  let a := st.data.analytics
  let hour := hourKey now
  let dk := dateKeyOf now
  let vc := inp.car + inp.bus + inp.truck + inp.motorcycle
  let hb := (alook hour a.hourlyData).getD { vehicles := 0, count := 0 }
  let hourlyData2 :=
    aset hour { vehicles := hb.vehicles + vc, count := hb.count + 1 } a.hourlyData
  let cameraHourlyData2 :=
    match st.data.session.currentIntersection with
    | none => a.cameraHourlyData
    | some camId =>
        let camMap := (alook camId a.cameraHourlyData).getD []
        let cb := (alook hour camMap).getD { vehicles := 0, count := 0 }
        aset camId (aset hour { vehicles := cb.vehicles + vc, count := cb.count + 1 } camMap)
          a.cameraHourlyData
  let dt := (alook dk a.dailyTotals).getD { vehicles := 0, incidents := 0, sessions := 0 }
  let dailyTotals2 := aset dk { dt with vehicles := dt.vehicles + vc } a.dailyTotals
  let locName := (st.data.session.currentIntersection).getD "Unknown"
  let stats := (alook locName a.intersectionStats).getD { vehicles := 0, avgWait := 0, count := 0 }
  let newWait := inp.avgWaitTime
  let avgWait2 :=
    if 0 < newWait then jsRound ((stats.avgWait * stats.count + newWait) / (stats.count + 1))
    else stats.avgWait
  let stats2 : LocStats := { vehicles := stats.vehicles + vc, avgWait := avgWait2, count := stats.count + 1 }
  let intersectionStats2 := aset locName stats2 a.intersectionStats
  save { st with data := { st.data with analytics :=
    { a with
      hourlyData := hourlyData2
      cameraHourlyData := cameraHourlyData2
      dailyTotals := dailyTotals2
      intersectionStats := intersectionStats2
      totalVehicles := a.totalVehicles + vc } } }

/-- Method `recordIncident(type, description)` at clock instant `now`; the fresh id
is `Date.now()`, i.e. `now` itself. -/
def recordIncident (now : ℚ) (ty desc : String) (st : Store) : Store :=
  let a := st.data.analytics
  let inc : Incident :=
    { id := now, type := ty, description := desc, timestamp := now
      intersection := st.data.session.currentIntersection }
  let incidents1 := inc :: a.incidents
  let incidents2 := if 100 < incidents1.length then incidents1.take 100 else incidents1
  let dk := dateKeyOf now
  let dailyTotals2 :=
    match alook dk a.dailyTotals with
    | some t => aset dk { t with incidents := t.incidents + 1 } a.dailyTotals
    | none => a.dailyTotals
  save { st with data := { st.data with analytics :=
    { a with incidents := incidents2, dailyTotals := dailyTotals2 } } }

/-- Method `recordRecommendation(text)` at clock instant `now`.  The lazy
initialization of a missing `recommendations` array is the identity here
(the list is always present in the model). -/
def recordRecommendation (now : ℚ) (text : String) (st : Store) : Store :=
  let a := st.data.analytics
  if a.recommendations.any
      (fun r => r.text == text && decide (now - r.timestamp < 300000)) then st
  else
    let rec0 : Recommendation :=
      { id := now, text := text, timestamp := now
        intersection := st.data.session.currentIntersection }
    let recs1 := rec0 :: a.recommendations
    let recs2 := if 50 < recs1.length then recs1.take 50 else recs1
    save { st with data := { st.data with analytics := { a with recommendations := recs2 } } }

/-- Method `recordQueueLength(queueMeters)` at clock instant `now`.  The lazy
initialization of a missing `queueData` subtree is the identity here. -/
def recordQueueLength (now : ℚ) (queueMeters : ℚ) (st : Store) : Store :=
  if queueMeters < 0 then st else
  let a := st.data.analytics
  let q := a.queueData
  let hour := hourKey now
  let camId := (st.data.session.currentIntersection).getD "unknown"
  let hb := (alook hour q.hourlyQueue).getD { sum := 0, count := 0 }
  let cb := (alook camId q.cameraQueue).getD { sum := 0, count := 0 }
  let q2 : QueueData :=
    { totalReadings := q.totalReadings + 1
      totalQueueSum := q.totalQueueSum + queueMeters
      hourlyQueue := aset hour { sum := hb.sum + queueMeters, count := hb.count + 1 } q.hourlyQueue
      cameraQueue := aset camId { sum := cb.sum + queueMeters, count := cb.count + 1 } q.cameraQueue }
  save { st with data := { st.data with analytics := { a with queueData := q2 } } }

/-- Method `clearAnalytics()`: reset the analytics subtree to defaults and save. -/
def clearAnalytics (st : Store) : Store :=
  save { st with data := { st.data with analytics := defaultAnalytics } }

/-- Method `cleanupOldData()` at clock instant `now`: the cutoff key is the ISO date
of `now` minus the configured retention days (the `setDate` arithmetic
subtracts exactly that many whole days). -/
def cleanupOldData (now : ℚ) (st : Store) : Store :=
  let retention := st.data.settings.dataRetentionDays
  let cutoffKey := dateKey (dayOf now - retention)
  let a := st.data.analytics
  let dailyTotals2 := a.dailyTotals.filter (fun kv => !(jsLtStr kv.1 cutoffKey))
  let incidents2 := a.incidents.filter (fun i => !(jsLtStr (dateKeyOf i.timestamp) cutoffKey))
  save { st with data := { st.data with analytics :=
    { a with dailyTotals := dailyTotals2, incidents := incidents2 } } }

/-- Method `recordRecommendationWithMeta(text, location)` at clock instant `now`,
with `rand` the value `Math.random()` returned: prepends unconditionally
(no dedup scan, no trim to 50) and performs no `save()`. -/
def recordRecommendationWithMeta (now rand : ℚ) (text location : String) (st : Store) : Store :=
  let a := st.data.analytics
  let rec0 : Recommendation :=
    { id := now + rand, text := text, timestamp := now, intersection := some location }
  { st with data := { st.data with analytics :=
    { a with recommendations := rec0 :: a.recommendations } } }

/-! ## The read-side summary (`getAnalyticsSummary`) -/

/-- A JavaScript runtime error surfaced by a method. -/
inductive JsError where
  | referenceError : JsError
  deriving DecidableEq, Repr

/-- The object `getAnalyticsSummary` is written to return. -/
structure Summary where
  totalVehiclesToday : ℚ
  congestionScore : String
  incidentsToday : ℚ
  flowEfficiency : ℚ
  totalSessions : ℚ
  avgQueueLength : ℚ
  timeSavedMinutes : ℚ
  co2SavedKg : ℚ
  emergencyEvents : ℚ
  deriving DecidableEq, Repr

/-- Method `getCameraName(cameraId)`: returns the id itself. -/
def getCameraName (cameraId : String) : String := cameraId

/-- Method `getAnalyticsSummary(cameraId)` at clock instant `now`.

The source (DataStore.js:429) computes
`const efficiency = totalVehicles > 0 ? ... : 0` — but the identifier
`totalVehicles` is declared nowhere in the method, the class, or the module
scope, so evaluating it throws `ReferenceError: totalVehicles is not
defined` before any value is returned.  The embedding runs the statements
that precede that line and then surfaces the error. -/
def getAnalyticsSummary (now : ℚ) (cameraId : Option String) (d : Doc) : Except JsError Summary :=
  let today := dateKeyOf now
  let todayData := (alook today d.analytics.dailyTotals).getD
    { vehicles := 0, incidents := 0, sessions := 0 }
  let _incidentCount : ℚ :=
    match cameraId with
    | some cid =>
        ((d.analytics.incidents).filter
          (fun i => i.intersection == some cid || i.intersection == some (getCameraName cid))).length
    | none => todayData.incidents
  Except.error JsError.referenceError

/-! ## The cross-tab storage listener of the analytics page (`analytics.js`) -/

/-- The fixed base storage key of the `DataStore`. -/
def baseKey : String := "traffiq_data"

/-- Accessor `storageKey`: namespaced by the email of the active session when one is
present, else the base key. -/
def storageKey (sessionEmail : Option String) : String :=
  match sessionEmail with
  | some user => baseKey ++ "_" ++ user
  | none => baseKey

/-- The `storage` event listener in `analytics.js`: when the event key is
exactly the literal `traffiq_data`, reload `dataStore.data` from storage (the
subsequent filter/chart refresh reads the reloaded document); any other key
does nothing. -/
def handleStorageEvent (key : String) (st : Store) : Store :=
  if key = "traffiq_data" then { st with data := load st.stored } else st

/-! ## Concrete states used in examples and witnesses -/

/-- A store holding document `d` with an empty storage slot. -/
def mkStore (d : Doc) : Store := { data := d, stored := none }

/-- A fresh store whose session points at location `loc`. -/
def withIntersection (loc : String) : Store :=
  mkStore { defaultData with session := { lastActive := none, currentIntersection := some loc } }

/-- The observation `{car:5, truck:1}` with the given average wait. -/
def waitObs (w : ℚ) : TrafficInput :=
  { car := 5, bus := 0, truck := 1, motorcycle := 0, avgWaitTime := w }

/-- Midnight UTC on 2024-01-10 in epoch milliseconds (day number 19732). -/
def t2024 : ℚ := 19732 * 86400000

/-- States of the wait-time running-average scenario: waits 10, 20, 30
recorded for location `"i95"`. -/
def c2st1 : Store := recordTrafficData t2024 (waitObs 10) (withIntersection "i95")

/-- Second state of the running-average scenario. -/
def c2st2 : Store := recordTrafficData t2024 (waitObs 20) c2st1

/-- Third state of the running-average scenario. -/
def c2st3 : Store := recordTrafficData t2024 (waitObs 30) c2st2

/-- The recommendation text of the dedup scenario. -/
def c3text : String := "Extend turning lane green phase by 3s"

/-- Dedup scenario: first recording at `t2024`. -/
def c3st1 : Store := recordRecommendation t2024 c3text (mkStore defaultData)

/-- Dedup scenario: identical text 100 seconds later (inside the window). -/
def c3st2 : Store := recordRecommendation (t2024 + 100000) c3text c3st1

/-- Dedup scenario: identical text exactly 5 minutes after the first entry
(outside the strict window). -/
def c3st3 : Store := recordRecommendation (t2024 + 300000) c3text c3st2

/-- Fold `recordIncident` over a list of `(now, type, description)` calls. -/
def insertIncidents (calls : List (ℚ × String × String)) (st : Store) : Store :=
  calls.foldl (fun s p => recordIncident p.1 p.2.1 p.2.2 s) st

/-- The incident record one `recordIncident` call produces (the
current intersection is unchanged by the method, hence a parameter). -/
def mkIncidentRec (ci : Option String) (p : ℚ × String × String) : Incident :=
  { id := p.1, type := p.2.1, description := p.2.2, timestamp := p.1, intersection := ci }

/-- 150 incident-insertion calls at increasing clock instants. -/
def c4calls : List (ℚ × String × String) :=
  (List.range 150).map (fun i => ((i : ℚ), "accident", "demo incident"))

/-- A `dailyTotals` map holding the keys 2024-01-01 through 2024-01-10. -/
def c5dailyTotals : List (String × DayTotals) :=
  [("2024-01-01", { vehicles := 1, incidents := 0, sessions := 1 }),
   ("2024-01-02", { vehicles := 2, incidents := 0, sessions := 1 }),
   ("2024-01-03", { vehicles := 3, incidents := 1, sessions := 1 }),
   ("2024-01-04", { vehicles := 4, incidents := 0, sessions := 1 }),
   ("2024-01-05", { vehicles := 5, incidents := 2, sessions := 1 }),
   ("2024-01-06", { vehicles := 6, incidents := 0, sessions := 1 }),
   ("2024-01-07", { vehicles := 7, incidents := 0, sessions := 1 }),
   ("2024-01-08", { vehicles := 8, incidents := 1, sessions := 1 }),
   ("2024-01-09", { vehicles := 9, incidents := 0, sessions := 1 }),
   ("2024-01-10", { vehicles := 10, incidents := 0, sessions := 1 })]

/-- Retention-pruning example store: retention 5 days, ten daily entries. -/
def c5store : Store :=
  mkStore { defaultData with
    settings := { defaultSettings with dataRetentionDays := 5 }
    analytics := { defaultAnalytics with dailyTotals := c5dailyTotals } }

/-- A store whose `dailyTotals` has an entry for 2024-01-10. -/
def c6store : Store :=
  mkStore { defaultData with
    analytics := { defaultAnalytics with
      dailyTotals := [("2024-01-10", { vehicles := 3, incidents := 2, sessions := 1 })] } }

/-- A document distinguishable from the default one. -/
def c7doc : Doc :=
  { defaultData with analytics := { defaultAnalytics with totalVehicles := 5 } }

/-- A store whose persisted copy (written by another tab) differs from its
in-memory document. -/
def c7store : Store := { data := defaultData, stored := some (encodeDoc c7doc) }

/-- A fresh store pointed at location `"locA"` for the queue-length claims. -/
def c9store : Store := withIntersection "locA"

/-! ## Helper lemmas -/

theorem alook_aset_self {α : Type} (k : String) (v : α) (m : List (String × α)) :
    alook k (aset k v m) = some v := by
  induction m with
  | nil => simp [aset, alook]
  | cons kv rest ih =>
      by_cases h : kv.1 = k
      · simp [aset, h, alook]
      · simp [aset, h, alook, ih]

theorem alook_aset_ne {α : Type} {k k2 : String} (v : α) (m : List (String × α))
    (h : k ≠ k2) : alook k (aset k2 v m) = alook k m := by
  induction m with
  | nil => simp [aset, alook, Ne.symm h]
  | cons kv rest ih =>
      by_cases h1 : kv.1 = k2
      · simp [aset, alook, h1, Ne.symm h]
      · simp [aset, alook, h1, ih]

theorem alook_filter_key {α : Type} (p : String → Bool) (k : String) (m : List (String × α)) :
    alook k (m.filter (fun kv => p kv.1)) = if p k then alook k m else none := by
  induction m with
  | nil => simp [alook]
  | cons kv rest ih =>
      obtain ⟨k1, v1⟩ := kv
      by_cases hk : k1 = k
      · subst hk
        by_cases hp1 : p k1 <;> simp [List.filter_cons, hp1, alook, ih]
      · by_cases hp1 : p k1 <;> simp [List.filter_cons, hp1, alook, hk, ih]

theorem take_append_take {α : Type} (a b : List α) : ∀ n k : ℕ, n ≤ k →
    (a ++ b.take k).take n = (a ++ b).take n := by
  induction a with
  | nil => intro n k h; simp [List.take_take, min_eq_left h]
  | cons x xs ih =>
      intro n k h
      cases n with
      | zero => simp
      | succ m =>
          simp only [List.cons_append, List.take_succ_cons]
          rw [ih m k (le_trans (Nat.le_succ m) h)]

theorem recordIncident_session (now : ℚ) (ty desc : String) (st : Store) :
    (recordIncident now ty desc st).data.session = st.data.session := rfl

theorem recordIncident_incidents (now : ℚ) (ty desc : String) (st : Store)
    (h : st.data.analytics.incidents.length ≤ 100) :
    (recordIncident now ty desc st).data.analytics.incidents =
      List.take 100 (mkIncidentRec st.data.session.currentIntersection (now, ty, desc)
        :: st.data.analytics.incidents) := by
  simp only [recordIncident, mkIncidentRec, save]
  by_cases hl : 100 < st.data.analytics.incidents.length + 1
  · simp [List.length_cons, hl]
  · simp [List.length_cons, hl]
    omega

theorem insertIncidents_incidents (calls : List (ℚ × String × String)) : ∀ st : Store,
    st.data.analytics.incidents.length ≤ 100 →
    (insertIncidents calls st).data.analytics.incidents =
      List.take 100 ((calls.map (mkIncidentRec st.data.session.currentIntersection)).reverse
        ++ st.data.analytics.incidents) := by
  induction calls with
  | nil =>
      intro st h
      simp [insertIncidents, List.take_of_length_le h]
  | cons c rest ih =>
      intro st h
      have hstep : insertIncidents (c :: rest) st =
          insertIncidents rest (recordIncident c.1 c.2.1 c.2.2 st) := rfl
      have hone := recordIncident_incidents c.1 c.2.1 c.2.2 st h
      have hlen2 : (recordIncident c.1 c.2.1 c.2.2 st).data.analytics.incidents.length ≤ 100 := by
        rw [hone]; exact List.length_take_le 100 _
      rw [hstep, ih _ hlen2, hone, recordIncident_session]
      rw [List.map_cons, List.reverse_cons, List.append_assoc, List.singleton_append]
      exact take_append_take _ _ 100 100 (le_refl 100)

/-! ### Serialization round-trip lemmas -/

theorem decList_map {α : Type} {f : α → Json} {g : Json → Option α}
    (h : ∀ a, g (f a) = some a) (l : List α) : decList g (l.map f) = some l := by
  induction l with
  | nil => rfl
  | cons a rest ih => simp [decList, h a, ih]

theorem decKList_map {α : Type} {f : α → Json} {g : Json → Option α}
    (h : ∀ a, g (f a) = some a) (m : List (String × α)) :
    decKList g (m.map (fun kv => (kv.1, f kv.2))) = some m := by
  induction m with
  | nil => rfl
  | cons kv rest ih => simp [decKList, h kv.2, ih]

theorem decMap_encMap {α : Type} {f : α → Json} {g : Json → Option α}
    (h : ∀ a, g (f a) = some a) (m : List (String × α)) :
    decMap g (encMap f m) = some m := by
  simp [encMap, decMap, decKList_map h]

theorem decOptStr_enc (x : Option String) : decOptStr (encOptStr x) = some x := by
  cases x <;> rfl

theorem decOptNum_enc (x : Option ℚ) : decOptNum (encOptNum x) = some x := by
  cases x <;> rfl

theorem decInt_enc (n : ℤ) : decInt (Json.jnum (n : ℚ)) = some n := by
  simp [decInt]

theorem decBucket_enc (b : Bucket) : decBucket (encBucket b) = some b := rfl

theorem decDayTotals_enc (d : DayTotals) : decDayTotals (encDayTotals d) = some d := rfl

theorem decLocStats_enc (s : LocStats) : decLocStats (encLocStats s) = some s := rfl

theorem decSumCount_enc (s : SumCount) : decSumCount (encSumCount s) = some s := rfl

theorem decQueueData_enc (q : QueueData) : decQueueData (encQueueData q) = some q := by
  simp [encQueueData, decQueueData, decNum, decMap_encMap decSumCount_enc]

theorem decSavingsData_enc (s : SavingsData) : decSavingsData (encSavingsData s) = some s := rfl

theorem decIncident_enc (i : Incident) : decIncident (encIncident i) = some i := by
  obtain ⟨i1, t1, d1, ts1, x1⟩ := i
  cases x1 <;> rfl

theorem decRecommendation_enc (r : Recommendation) :
    decRecommendation (encRecommendation r) = some r := by
  obtain ⟨i1, t1, ts1, x1⟩ := r
  cases x1 <;> rfl

theorem decEmergencyEvent_enc (e : EmergencyEvent) :
    decEmergencyEvent (encEmergencyEvent e) = some e := by
  simp [encEmergencyEvent, decEmergencyEvent, decNum, decStr, decOptStr_enc, decOptNum_enc]

theorem decSettings_enc (s : Settings) : decSettings (encSettings s) = some s := by
  simp [encSettings, decSettings, decSettingsFields, decStr, decBool, decNum, decInt_enc]

theorem decAnalytics_enc (a : Analytics) : decAnalytics (encAnalytics a) = some a := by
  simp [encAnalytics, decAnalytics, decAnalyticsFields, decNum, decArr,
    decList_map decIncident_enc, decList_map decRecommendation_enc,
    decList_map decEmergencyEvent_enc, decMap_encMap decBucket_enc,
    decMap_encMap (decMap_encMap decBucket_enc), decMap_encMap decLocStats_enc,
    decMap_encMap decDayTotals_enc, decQueueData_enc, decSavingsData_enc]

theorem decSession_enc (s : Session) : decSession (encSession s) = some s := by
  simp [encSession, decSession, decOptNum_enc, decOptStr_enc]

theorem decodeDoc_encodeDoc (d : Doc) : decodeDoc (encodeDoc d) = some d := by
  simp [encodeDoc, decodeDoc, decSettings_enc, decAnalytics_enc, decSession_enc]

/-! ## Claim theorems -/

/-- Claim C1 (code bug): the claim says `clearAnalytics()` followed by
`getAnalyticsSummary()` returns an all-zero summary without raising; in the
source, `getAnalyticsSummary` evaluates the identifier `totalVehicles`
(DataStore.js:429) which is declared nowhere in scope, so for every prior
document state the call throws `ReferenceError` instead of returning. -/
theorem claim1_summary_after_clear_throws (st : Store) (now : ℚ) :
    getAnalyticsSummary now none (clearAnalytics st).data =
      Except.error JsError.referenceError := rfl

/-- Claim C8: the serialized document produced by `exportData()`, written to
storage and read back through `load()`, reproduces the document exactly —
in particular the totals, the hourly and daily buckets, and the three logs
are unchanged. -/
theorem claim8_export_load_round_trip (d : Doc) :
    load (some (exportData d)) = d ∧
    (load (some (exportData d))).analytics.totalVehicles = d.analytics.totalVehicles ∧
    (load (some (exportData d))).analytics.hourlyData = d.analytics.hourlyData ∧
    (load (some (exportData d))).analytics.dailyTotals = d.analytics.dailyTotals ∧
    (load (some (exportData d))).analytics.incidents = d.analytics.incidents ∧
    (load (some (exportData d))).analytics.recommendations = d.analytics.recommendations ∧
    (load (some (exportData d))).analytics.emergencyEvents = d.analytics.emergencyEvents := by
  have h : load (some (exportData d)) = d := by
    simp [load, exportData, decodeDoc_encodeDoc]
  exact ⟨h, by rw [h], by rw [h], by rw [h], by rw [h], by rw [h], by rw [h]⟩

/-- Claim C10: `recordRecommendationWithMeta(text, location)` always prepends
exactly one entry (no 5-minute dedup scan, no trim to the 50-entry cap — the
length always grows by one, so the log can exceed 50 through this path) and
does not write to persistent storage. -/
theorem claim10_meta_prepend_no_dedup_no_save (st : Store) (now rand : ℚ)
    (text location : String) :
    (recordRecommendationWithMeta now rand text location st).data.analytics.recommendations =
      { id := now + rand, text := text, timestamp := now, intersection := some location }
        :: st.data.analytics.recommendations ∧
    (recordRecommendationWithMeta now rand text location st).data.analytics.recommendations.length
      = st.data.analytics.recommendations.length + 1 ∧
    (recordRecommendationWithMeta now rand text location st).stored = st.stored := by
  exact ⟨rfl, by simp [recordRecommendationWithMeta], rfl⟩

/-- Claim C2: the location wait-time running average is a cumulative mean
with the pre-increment count as denominator — after `recordTrafficData` with
a positive wait, the entry of the location holds
`avgWait = round((avgWait*count + waitSeconds)/(count+1))` and `count+1`;
and from a fresh `"i95"` entry, waits 10, 20, 30 yield the `avgWait`
sequence 10, 15, 20. -/
theorem claim2_wait_running_average :
    (∀ (st : Store) (now : ℚ) (inp : TrafficInput),
      st.data.settings.saveHistoricalData = true →
      0 < inp.avgWaitTime →
      let loc := st.data.session.currentIntersection.getD "Unknown"
      let stats := (alook loc st.data.analytics.intersectionStats).getD
        { vehicles := 0, avgWait := 0, count := 0 }
      alook loc (recordTrafficData now inp st).data.analytics.intersectionStats =
        some { vehicles := stats.vehicles + (inp.car + inp.bus + inp.truck + inp.motorcycle)
               avgWait := jsRound ((stats.avgWait * stats.count + inp.avgWaitTime)
                 / (stats.count + 1))
               count := stats.count + 1 }) ∧
    (alook "i95" c2st1.data.analytics.intersectionStats).map LocStats.avgWait = some 10 ∧
    (alook "i95" c2st2.data.analytics.intersectionStats).map LocStats.avgWait = some 15 ∧
    (alook "i95" c2st3.data.analytics.intersectionStats).map LocStats.avgWait = some 20 := by
  refine ⟨?_, ?_, ?_, ?_⟩
  · intro st now inp hsave hpos
    simp [recordTrafficData, save, hsave, hpos, alook_aset_self]
  · with_unfolding_all decide
  · with_unfolding_all decide
  · with_unfolding_all decide

/-- Witness for C2 at the concrete first step of the scenario. -/
theorem claim2_wait_running_average_witness :
    (withIntersection "i95").data.settings.saveHistoricalData = true ∧
    ((0 : ℚ) < (waitObs 10).avgWaitTime) ∧
    (let st := withIntersection "i95"
     let inp := waitObs 10
     let loc := st.data.session.currentIntersection.getD "Unknown"
     let stats := (alook loc st.data.analytics.intersectionStats).getD
       { vehicles := 0, avgWait := 0, count := 0 }
     alook loc (recordTrafficData t2024 inp st).data.analytics.intersectionStats =
       some { vehicles := stats.vehicles + (inp.car + inp.bus + inp.truck + inp.motorcycle)
              avgWait := jsRound ((stats.avgWait * stats.count + inp.avgWaitTime)
                / (stats.count + 1))
              count := stats.count + 1 }) := by
  have h2 : (0 : ℚ) < (waitObs 10).avgWaitTime := by with_unfolding_all decide
  exact ⟨rfl, h2,
    claim2_wait_running_average.1 (withIntersection "i95") t2024 (waitObs 10) rfl h2⟩

/-- Claim C3: `recordRecommendation` skips the insert entirely when an entry
with identical text lies strictly within the 5-minute (300000 ms) window,
and prepends when no matching entry is that recent; in the concrete
scenario, a repeat after 100 s leaves one entry and a repeat at exactly
5 minutes yields two. -/
theorem claim3_recommendation_dedup :
    (∀ (st : Store) (now : ℚ) (text : String),
      st.data.analytics.recommendations.any
          (fun r => r.text == text && decide (now - r.timestamp < 300000)) = true →
      recordRecommendation now text st = st) ∧
    (∀ (st : Store) (now : ℚ) (text : String),
      st.data.analytics.recommendations.any
          (fun r => r.text == text && decide (now - r.timestamp < 300000)) = false →
      st.data.analytics.recommendations.length < 50 →
      (recordRecommendation now text st).data.analytics.recommendations =
        { id := now, text := text, timestamp := now
          intersection := st.data.session.currentIntersection }
          :: st.data.analytics.recommendations) ∧
    (c3st1.data.analytics.recommendations.map Recommendation.text) = [c3text] ∧
    (c3st2.data.analytics.recommendations.map Recommendation.text) = [c3text] ∧
    (c3st3.data.analytics.recommendations.map Recommendation.text) = [c3text, c3text] := by
  refine ⟨?_, ?_, ?_, ?_, ?_⟩
  · intro st now text h
    simp [recordRecommendation, h]
  · intro st now text h hlen
    simp only [recordRecommendation, h, Bool.false_eq_true, if_false, save]
    rw [if_neg (by simp only [List.length_cons]; omega)]
  · with_unfolding_all decide
  · with_unfolding_all decide
  · with_unfolding_all decide

/-- Witness for C3: the second call of the scenario hits the dedup window and
returns the store unchanged. -/
theorem claim3_recommendation_dedup_witness :
    c3st1.data.analytics.recommendations.any
        (fun r => r.text == c3text && decide ((t2024 + 100000) - r.timestamp < 300000)) = true ∧
    recordRecommendation (t2024 + 100000) c3text c3st1 = c3st1 := by
  have h : c3st1.data.analytics.recommendations.any
      (fun r => r.text == c3text && decide ((t2024 + 100000) - r.timestamp < 300000)) = true := by
    with_unfolding_all decide
  exact ⟨h, claim3_recommendation_dedup.1 c3st1 (t2024 + 100000) c3text h⟩

/-- Claim C4: the incidents log is maintained newest-first with trimming only
from the tail — inserting 150 incidents into an empty log leaves exactly the
100 most recently recorded ones, newest first, the oldest 50 dropped. -/
theorem claim4_incident_log_bounding (calls : List (ℚ × String × String)) (st : Store)
    (h150 : calls.length = 150) (hempty : st.data.analytics.incidents = []) :
    (insertIncidents calls st).data.analytics.incidents =
      List.take 100 ((calls.map (mkIncidentRec st.data.session.currentIntersection)).reverse) ∧
    (insertIncidents calls st).data.analytics.incidents.length = 100 ∧
    (insertIncidents calls st).data.analytics.incidents =
      ((calls.drop 50).map (mkIncidentRec st.data.session.currentIntersection)).reverse := by
  have hbase := insertIncidents_incidents calls st (by rw [hempty]; simp)
  rw [hempty, List.append_nil] at hbase
  refine ⟨hbase, ?_, ?_⟩
  · rw [hbase]
    simp [List.length_take, List.length_reverse, List.length_map, h150]
  · rw [hbase, List.take_reverse, List.length_map, h150]
    norm_num

/-- Witness for C4: 150 concrete insertions into a fresh store. -/
theorem claim4_incident_log_bounding_witness :
    c4calls.length = 150 ∧
    (mkStore defaultData).data.analytics.incidents = [] ∧
    (insertIncidents c4calls (mkStore defaultData)).data.analytics.incidents =
      ((c4calls.drop 50).map
        (mkIncidentRec (mkStore defaultData).data.session.currentIntersection)).reverse := by
  have h1 : c4calls.length = 150 := by with_unfolding_all decide
  have h2 : (mkStore defaultData).data.analytics.incidents = [] := rfl
  exact ⟨h1, h2, (claim4_incident_log_bounding c4calls (mkStore defaultData) h1 h2).2.2⟩

/-- Claim C5: `cleanupOldData` keys its cutoff at today minus the configured
retention days; a `dailyTotals` entry survives exactly when its key is not
lexicographically below the cutoff, an incident survives exactly when the
date portion of its timestamp is not below the cutoff; and in the concrete
2024-01-01..2024-01-10 example with retention 5 evaluated on 2024-01-10, the
cutoff is 2024-01-05 and exactly the entries from 2024-01-05 on remain. -/
theorem claim5_retention_pruning :
    (∀ (st : Store) (now : ℚ) (k : String),
      alook k (cleanupOldData now st).data.analytics.dailyTotals =
        (if jsLtStr k (dateKey (dayOf now - st.data.settings.dataRetentionDays)) = true
         then none else alook k st.data.analytics.dailyTotals)) ∧
    (∀ (st : Store) (now : ℚ) (i : Incident),
      i ∈ (cleanupOldData now st).data.analytics.incidents ↔
        i ∈ st.data.analytics.incidents ∧
          jsLtStr (dateKeyOf i.timestamp)
            (dateKey (dayOf now - st.data.settings.dataRetentionDays)) = false) ∧
    dateKey (dayOf t2024 - 5) = "2024-01-05" ∧
    ((cleanupOldData t2024 c5store).data.analytics.dailyTotals).map Prod.fst =
      ["2024-01-05", "2024-01-06", "2024-01-07", "2024-01-08", "2024-01-09",
       "2024-01-10"] := by
  refine ⟨?_, ?_, ?_, ?_⟩
  · intro st now k
    simp only [cleanupOldData, save]
    rw [alook_filter_key
      (fun x => !(jsLtStr x (dateKey (dayOf now - st.data.settings.dataRetentionDays))))]
    cases h : jsLtStr k (dateKey (dayOf now - st.data.settings.dataRetentionDays)) <;>
      simp [h]
  · intro st now i
    simp [cleanupOldData, save, List.mem_filter, Bool.not_eq_true']
  · with_unfolding_all decide
  · with_unfolding_all decide

/-- Counterexample to claim C6: on a store whose `dailyTotals` has no entry
for today, `recordIncident` records the incident but leaves `dailyTotals`
empty — no daily incident counter becomes one greater. -/
theorem claim6_counterexample :
    (recordIncident t2024 "accident" "stalled vehicle"
      (mkStore defaultData)).data.analytics.incidents.length = 1 ∧
    (recordIncident t2024 "accident" "stalled vehicle"
      (mkStore defaultData)).data.analytics.dailyTotals = [] := by
  constructor
  · with_unfolding_all decide
  · with_unfolding_all decide

/-- Claim C6 as amended: `recordIncident` increments the incident counter of today
only when `dailyTotals` already has an entry for today; when it has none, the
`dailyTotals` map is left unchanged (no entry is created). -/
theorem claim6_daily_increment_amended (st : Store) (now : ℚ) (ty desc : String) :
    (∀ t : DayTotals, alook (dateKeyOf now) st.data.analytics.dailyTotals = some t →
      alook (dateKeyOf now) (recordIncident now ty desc st).data.analytics.dailyTotals =
        some { t with incidents := t.incidents + 1 }) ∧
    (alook (dateKeyOf now) st.data.analytics.dailyTotals = none →
      (recordIncident now ty desc st).data.analytics.dailyTotals =
        st.data.analytics.dailyTotals) := by
  constructor
  · intro t h
    simp [recordIncident, save, h, alook_aset_self]
  · intro h
    simp [recordIncident, save, h]

/-- Witness for the amended C6 on a store that does hold the entry for today. -/
theorem claim6_daily_increment_amended_witness :
    alook (dateKeyOf t2024) c6store.data.analytics.dailyTotals =
      some { vehicles := 3, incidents := 2, sessions := 1 } ∧
    alook (dateKeyOf t2024)
        (recordIncident t2024 "accident" "stalled vehicle" c6store).data.analytics.dailyTotals =
      some { vehicles := 3, incidents := 2 + 1, sessions := 1 } := by
  have h : alook (dateKeyOf t2024) c6store.data.analytics.dailyTotals =
      some { vehicles := 3, incidents := 2, sessions := 1 } := by
    with_unfolding_all decide
  exact ⟨h, (claim6_daily_increment_amended c6store t2024 "accident" "stalled vehicle").1
    { vehicles := 3, incidents := 2, sessions := 1 } h⟩

/-- Counterexample to claim C7: with an active identity, the analytics
storage key of the document is the namespaced `traffiq_data_<email>`, yet a
storage event carrying exactly that key does not reload the document (the
listener compares against the bare base key only), even though a reload
would have produced a different document. -/
theorem claim7_counterexample :
    storageKey (some "alice@example.com") = "traffiq_data_alice@example.com" ∧
    (handleStorageEvent (storageKey (some "alice@example.com")) c7store).data =
      c7store.data ∧
    load c7store.stored ≠ c7store.data := by
  refine ⟨rfl, ?_, ?_⟩
  · with_unfolding_all decide
  · with_unfolding_all decide

/-- Claim C7 as amended: the listener reloads the document from storage
exactly for events whose key is the bare base key `traffiq_data`; an event
on any other key — including the identity-namespaced `<baseKey>_<email>`
form — causes no reload. -/
theorem claim7_storage_reload_amended (st : Store) (key : String) :
    (handleStorageEvent "traffiq_data" st).data = load st.stored ∧
    (key ≠ "traffiq_data" → handleStorageEvent key st = st) := by
  constructor
  · simp [handleStorageEvent]
  · intro h
    simp [handleStorageEvent, h]

/-- Witness for the amended C7 at the namespaced key. -/
theorem claim7_storage_reload_amended_witness :
    storageKey (some "alice@example.com") ≠ "traffiq_data" ∧
    handleStorageEvent (storageKey (some "alice@example.com")) c7store = c7store := by
  have h : storageKey (some "alice@example.com") ≠ "traffiq_data" := by
    with_unfolding_all decide
  exact ⟨h,
    (claim7_storage_reload_amended c7store (storageKey (some "alice@example.com"))).2 h⟩

/-- Claim C9: a negative queue length is a complete no-op (the store,
including its persisted slot, is returned unchanged), while a non-negative
reading unconditionally updates the global sum and count, the hour bucket,
and the location bucket, and persists the document. -/
theorem claim9_negative_queue_rejection :
    (∀ (st : Store) (now q : ℚ), q < 0 → recordQueueLength now q st = st) ∧
    (∀ (st : Store) (now q : ℚ), ¬ q < 0 →
      let qd := st.data.analytics.queueData
      let hour := hourKey now
      let camId := st.data.session.currentIntersection.getD "unknown"
      let hb := (alook hour qd.hourlyQueue).getD { sum := 0, count := 0 }
      let cb := (alook camId qd.cameraQueue).getD { sum := 0, count := 0 }
      (recordQueueLength now q st).data.analytics.queueData.totalReadings =
        qd.totalReadings + 1 ∧
      (recordQueueLength now q st).data.analytics.queueData.totalQueueSum =
        qd.totalQueueSum + q ∧
      alook hour (recordQueueLength now q st).data.analytics.queueData.hourlyQueue =
        some { sum := hb.sum + q, count := hb.count + 1 } ∧
      alook camId (recordQueueLength now q st).data.analytics.queueData.cameraQueue =
        some { sum := cb.sum + q, count := cb.count + 1 } ∧
      (recordQueueLength now q st).stored =
        some (encodeDoc (recordQueueLength now q st).data)) := by
  constructor
  · intro st now q h
    simp [recordQueueLength, h]
  · intro st now q h
    refine ⟨?_, ?_, ?_, ?_, ?_⟩ <;>
      simp [recordQueueLength, h, save, alook_aset_self]

/-- Witness for C9: `-5` is rejected on a concrete store; `3` is recorded. -/
theorem claim9_negative_queue_rejection_witness :
    ((-5 : ℚ) < 0) ∧ recordQueueLength t2024 (-5) c9store = c9store ∧
    (¬ (3 : ℚ) < 0) ∧
    (recordQueueLength t2024 3 c9store).data.analytics.queueData.totalReadings =
      c9store.data.analytics.queueData.totalReadings + 1 := by
  have hneg : (-5 : ℚ) < 0 := by with_unfolding_all decide
  have hpos : ¬ (3 : ℚ) < 0 := by with_unfolding_all decide
  exact ⟨hneg, claim9_negative_queue_rejection.1 c9store t2024 (-5) hneg, hpos,
    (claim9_negative_queue_rejection.2 c9store t2024 3 hpos).1⟩

end TrafiQ
